import Mathlib

/-!
Verification of the DataInterpreter task-execution control loop
(`metagpt/roles/di/data_interpreter.py`) against its natural-language
specification.

The Python code is shallowly embedded: external collaborators (the language
model, the notebook execution backend, the tool recommender, the planner, the
review gate, the logging sink and the filesystem) are passed in as explicit
oracle functions, and the asynchronous control flow becomes ordinary
sequential computation in the `Except String` monad (a raised Python
exception is `.error`).  Calls to the language model and to the execution
backend are scripted by their call sequence number, which is how an opaque
stateful collaborator projects onto one concrete run.
-/

namespace DI

/-- Projection of `metagpt.schema.Message` onto the fields the interpreter
uses: `content`, `role` and `cause_by` (the component tag). -/
structure Message where
  content : String
  role : String
  causeBy : String
deriving DecidableEq

/-- One image file referenced by an `Image saved to: ...` match in an
execution result: its path, whether `Path(image_path).exists()`, and the
base64-encoded content read from disk when it does. -/
structure ImageFile where
  path : String
  found : Bool
  data : String
deriving DecidableEq

/-- The argument record of one `WriteAnalysisCode.run` call, as assembled by
`_write_code`. -/
structure GenCall where
  userRequirement : String
  planStatus : String
  toolInfo : String
  workingMemory : List Message
  useReflection : Bool
  userId : String
deriving DecidableEq

/-- `charsStartWith n h` is true when the character list `n` is an initial
segment of `h`. -/
def charsStartWith : List Char → List Char → Bool
  | [], _ => true
  | _ :: _, [] => false
  | a :: as, b :: bs => a == b && charsStartWith as bs

/-- `charsContain n h` is true when `n` occurs contiguously inside `h`. -/
def charsContain (needle : List Char) : List Char → Bool
  | [] => charsStartWith needle []
  | c :: t => charsStartWith needle (c :: t) || charsContain needle t

/-- Python's substring test `needle in hay` on strings. -/
def pyIn (needle hay : String) : Bool :=
  charsContain needle.toList hay.toList

/-- The characters Python's `str.strip()` removes (ASCII whitespace). -/
def isPySpace (c : Char) : Bool :=
  c == ' ' || c == '\t' || c == '\n' || c == '\r' || c == '\x0b' || c == '\x0c'

/-- Python's `s.strip()`: drop leading and trailing whitespace. -/
def pyStrip (s : String) : String :=
  String.mk (((s.data.dropWhile isPySpace).reverse.dropWhile isPySpace).reverse)

/-- `DATA_INFO` template from `metagpt/prompts/di/write_analysis_code.py`,
applied to its `info` field. -/
def dataInfoStr (info : String) : String :=
  "\n# Latest Data Info\nLatest data info after previous tasks:\n" ++ info ++ "\n"

/-- Modelled from the spec: `TaskType.DATA_PREPROCESS.type_name`
(`metagpt/strategy/task_type.py` is not part of the embedded sources); the
spec calls it the data-preprocessing task type tag.  Only its identity
matters to the control flow. -/
def dataPreprocessTypeName : String := "data preprocessing"

/-- `REACT_THINK_PROMPT.format(user_requirement=..., context=...)`. -/
def reactThinkPrompt (userRequirement ctx : String) : String :=
  "\n# User Requirement\n" ++ userRequirement ++ "\n# Context\n" ++ ctx ++
  "\n\nOutput a json following the format:\n```json\n\x7b\n    \"thoughts\": str = \"Thoughts on current situation, reflect on how you should proceed to fulfill the user requirement\",\n    \"state\": bool = \"Decide whether you need to take more actions to complete the user requirement. Return true if you think so. Return false if you think the requirement has been completely fulfilled.\"\n\x7d\n```\n"

/-- `_write_code(counter, plan_status, tool_info, user_id)`.

`gen` is the language model behind `WriteAnalysisCode.run`, scripted by the
call sequence number `callIdx`; the second component records the argument
record passed to `todo.run`, so that theorems can speak about the
`use_reflection` flag actually handed to the generator.  The reflective flag
is the source line `use_reflection = counter > 0 and self.use_reflection`.
`memories` is `self.get_memories()`; the user requirement is its last
element's content. -/
def writeCode (gen : Nat → String) (callIdx counter : Nat)
    (planStatus toolInfo : String) (memories workingMemory : List Message)
    (useReflectionCfg : Bool) (userId : String) : String × GenCall :=
  let useReflection := decide (0 < counter) && useReflectionCfg
  let userRequirement := (memories.getLast?.map Message.content).getD ""
  (gen callIdx,
    ⟨userRequirement, planStatus, toolInfo, workingMemory, useReflection, userId⟩)

/-- The body of the `try` block run for one matched image inside
`extract_and_log_images`: log the embedded base64 image (plus two trailing
fragments) when the file exists, otherwise log a not-found line.  Any
`.error` corresponds to a raised Python exception inside the `try`. -/
def processImage (logf : String → Except String Unit) (img : ImageFile) :
    Except String Unit := do
  if img.found then
    logf ("<img src='data:image/png;base64," ++ img.data ++ "'>\n")
    logf "\n"
    logf "---\n"
  else
    logf ("Image file not found: " ++ img.path)

/-- `extract_and_log_images(result, user_id)`, applied to the list of
matched image files (the regex scan over `result` and the filesystem lookup
are supplied by the caller as the already-resolved `images` list).  Each
image is processed inside a `try` block; on an exception the handler logs a
best-effort error line, and only a failure of that handler call itself
escapes. -/
def extractAndLogImages (logf : String → Except String Unit) :
    List ImageFile → Except String Unit
  | [] => .ok ()
  | img :: rest =>
    match processImage logf img with
    | .ok () => extractAndLogImages logf rest
    | .error e => do
        logf ("Error processing image " ++ img.path ++ ": " ++ e)
        extractAndLogImages logf rest

/-- Result of `_check_data`: the codes submitted to the execution backend and
the working memory afterwards. -/
structure CheckOut where
  execCalls : List String
  memory : List Message
deriving DecidableEq

/-- `_check_data()`.

`checkCodeGen` is the text returned by the (external) `CheckData().run(plan)`
language-model call, and `executeRun` the execution backend's response to an
inspection snippet.  The guard mirrors the source: return unless planning is
enabled, at least one task is finished and the current task's type is the
data-preprocessing tag; then return if the generated code strips to empty
(`if not code.strip()`); then execute, and only on success append the
formatted data-info message. -/
def checkData (usePlan : Bool) (finishedTasks : List String)
    (currentTaskType : String) (checkCodeGen : String)
    (executeRun : String → String × Bool) (wm : List Message) : CheckOut :=
  if usePlan = false ∨ finishedTasks = [] ∨ currentTaskType ≠ dataPreprocessTypeName then
    ⟨[], wm⟩
  else if pyStrip checkCodeGen = "" then
    ⟨[], wm⟩
  else
    let res := executeRun checkCodeGen
    if res.2 then
      ⟨[checkCodeGen], wm ++ [⟨dataInfoStr res.1, "user", "CheckData"⟩]⟩
    else
      ⟨[checkCodeGen], wm⟩

/-- Output record of `_think`: the returned boolean, how many language-model
calls were made, the working memory afterwards, and the argument of the
final `_set_state` call. -/
structure ThinkOut where
  needAction : Bool
  llmCalls : Nat
  workingMemory : List Message
  stateSet : Int
deriving DecidableEq

/-- `_think()` (react mode).

`llm` is `self.llm.aask`; `parseRsp` is the composition of
`CodeParser.parse_code` and `json.loads` extracting the `thoughts` and
`state` fields (`none` models a raised parse error); `renderCtx` is Python's
string formatting of the message list into the prompt.  An empty
`get_memories()` raises (`memories[0]`); an empty working memory forces the
first action without consulting the model. -/
def think (llm : String → String) (parseRsp : String → Option (String × Bool))
    (renderCtx : List Message → String) (memories wm : List Message) :
    Except String ThinkOut :=
  match memories with
  | [] => .error "IndexError: list index out of range"
  | m0 :: _ =>
    if wm = [] then
      .ok ⟨true, 0, wm ++ [m0], 0⟩
    else
      let rsp := llm (reactThinkPrompt m0.content (renderCtx wm))
      match parseRsp rsp with
      | none => .error "json decode error"
      | some (thoughts, state) =>
        .ok ⟨state, 1, wm ++ [⟨thoughts, "assistant", ""⟩],
          if state then 0 else -1⟩

/-- The external collaborators and configuration of one `DataInterpreter`
instance, as seen by `_write_and_exec_code`.

`todoRun` (the language model behind `WriteAnalysisCode.run`), `executeRun`
(the notebook execution backend `self.execute_code.run`) and `askReview`
(the human review gate `self.planner.ask_review`) are scripted by call
sequence number.  `logExecution` is the `shared_queue.log_execution` sink; a
`.error` is an exception it raises.  `imagesOf` resolves the regex scan of
`extract_and_log_images` together with the filesystem lookup for one result
text.  `changeWord` is modelled from the spec: `ReviewConst.CHANGE_WORDS`
(`metagpt/actions/di/ask_review.py` is not part of the embedded sources) is
a fixed set of retry trigger words of which the source consults the first
element, so `changeWord` stands for `ReviewConst.CHANGE_WORDS[0]`.
`planStatusOf` is `self.planner.get_plan_status()`; `checkDataCode` and
`checkExecuteRun` feed `_check_data`; `memories` is `self.get_memories()`. -/
structure Agent where
  usePlan : Bool
  useReflection : Bool
  toolRecommender : Option (String → String)
  planStatusOf : String
  finishedTasks : List String
  currentTaskType : String
  checkDataCode : String
  checkExecuteRun : String → String × Bool
  todoRun : Nat → String
  executeRun : Nat → String × Bool
  askReview : Nat → String
  logExecution : String → Except String Unit
  imagesOf : String → List ImageFile
  changeWord : String
  memories : List Message

/-- Mutable state of the `while` loop in `_write_and_exec_code`: the retry
`counter`, the number of generate-execute attempts performed so far
(`calls`, which also indexes the scripted oracles), the number of review
prompts issued (`reviews`), the working memory, the latest `(code, result)`
pair (`none` before the first attempt, when the Python locals are still
unbound), and the `success` flag. -/
structure LoopSt where
  counter : Nat
  calls : Nat
  reviews : Nat
  memory : List Message
  last : Option (String × String)
  success : Bool

/-- Observable outcome of `_write_and_exec_code`: the returned triple
`(code, result, success)` together with the number of loop execution-backend
calls, the number of review prompts, and the final working memory. -/
structure RunOut where
  code : String
  result : String
  success : Bool
  execCount : Nat
  reviewCount : Nat
  memory : List Message
deriving DecidableEq

/-- The `while` guard `not success and counter < max_retry`. -/
def loopCond (maxRetry : Nat) (st : LoopSt) : Bool :=
  !st.success && decide (st.counter < maxRetry)

/-- The `return code, result, success` statement; with no completed attempt
the locals `code`/`result` are unbound and Python raises `NameError`. -/
def weFinish (st : LoopSt) : Except String RunOut :=
  match st.last with
  | none => .error "NameError: name code is not defined"
  | some (c, r) => .ok ⟨c, r, st.success, st.calls, st.reviews, st.memory⟩

/-- One iteration of the `while` body of `_write_and_exec_code`: generate
code, log it, append the code message, execute, log the outcome (embedding
images on success), append the result message, bump the counter, and on
exhaustion without success consult the review gate, resetting the counter to
0 when the response contains the change trigger word. -/
def weIter (a : Agent) (maxRetry : Nat) (planStatus toolInfo userId : String)
    (st : LoopSt) : Except String LoopSt := do
  let code := (writeCode a.todoRun st.calls st.counter planStatus toolInfo
    a.memories st.memory a.useReflection userId).1
  a.logExecution "### Code to be executed\n"
  a.logExecution ("```python\n" ++ code ++ "\n```\n")
  let memory1 := st.memory ++ [⟨code, "assistant", "WriteAnalysisCode"⟩]
  let er := a.executeRun st.calls
  if er.2 then
    a.logExecution "### ✅Execution result\n"
    a.logExecution ("```\n" ++ er.1 ++ "\n```\n")
    extractAndLogImages a.logExecution (a.imagesOf er.1)
  else
    a.logExecution "### ❌Execution result\n"
    a.logExecution ("```\n" ++ er.1 ++ "\n```\n")
  let memory2 := memory1 ++ [⟨er.1, "user", "ExecuteNbCode"⟩]
  let counter1 := st.counter + 1
  if !er.2 && decide (maxRetry ≤ counter1) then
    let review := a.askReview st.reviews
    let counter2 := if pyIn a.changeWord review then 0 else counter1
    pure ⟨counter2, st.calls + 1, st.reviews + 1, memory2, some (code, er.1), er.2⟩
  else
    pure ⟨counter1, st.calls + 1, st.reviews, memory2, some (code, er.1), er.2⟩

/-- The `while not success and counter < max_retry` loop, with explicit fuel
bounding the number of iterations (the source loop may iterate beyond any
bound under persistent review approval; every theorem below supplies enough
fuel for the run it describes). -/
def weLoop (a : Agent) (maxRetry : Nat) (planStatus toolInfo userId : String) :
    Nat → LoopSt → Except String RunOut
  | 0, st =>
    if loopCond maxRetry st then .error "fuel exhausted" else weFinish st
  | fuel + 1, st =>
    if loopCond maxRetry st then
      (weIter a maxRetry planStatus toolInfo userId st).bind
        (weLoop a maxRetry planStatus toolInfo userId fuel)
    else weFinish st

/-- `content` of the last working-memory message, or `""` (the context fed
to the tool recommender). -/
def lastContent (wm : List Message) : String :=
  (wm.getLast?.map Message.content).getD ""

/-- `_write_and_exec_code(max_retry, user_id)`: compute the plan status and
tool info, run `_check_data`, then enter the retry loop on the resulting
working memory with counter 0 (the source's default for `max_retry` is 3). -/
def writeAndExecCode (a : Agent) (maxRetry : Nat) (userId : String)
    (wm0 : List Message) (fuel : Nat) : Except String RunOut :=
  let planStatus := if a.usePlan then a.planStatusOf else ""
  let toolInfo := match a.toolRecommender with
    | some rec => rec (lastContent wm0)
    | none => ""
  let cd := checkData a.usePlan a.finishedTasks a.currentTaskType
    a.checkDataCode a.checkExecuteRun wm0
  weLoop a maxRetry planStatus toolInfo userId fuel ⟨0, 0, 0, cd.memory, none, false⟩

/-- The block of messages the retry loop appends for `n` attempts starting
at call index `c`: per attempt the code message (`assistant`) immediately
followed by the execution-result message (`user`). -/
def attemptMsgs (a : Agent) : Nat → Nat → List Message
  | _, 0 => []
  | c, n + 1 =>
    ⟨a.todoRun c, "assistant", "WriteAnalysisCode"⟩ ::
    ⟨(a.executeRun c).1, "user", "ExecuteNbCode"⟩ :: attemptMsgs a (c + 1) n

/-- The `(code, result)` locals after `n` further failing attempts starting
at call index `c`, given their value `l` beforehand. -/
def lastAfter (a : Agent) (c : Nat) : Nat → Option (String × String) → Option (String × String)
  | 0, l => l
  | n + 1, _ => some (a.todoRun (c + n), (a.executeRun (c + n)).1)

/-- Observable effect on the execution backend during `_plan_and_act`. -/
inductive BackendEv where
  | terminate
deriving DecidableEq

/-- `_plan_and_act(user_id)`.

`inner` is the outcome of `super()._plan_and_act(user_id=user_id)` (external
base-class logic).  The first component lists the backend lifecycle calls the
wrapper itself makes: on the success path the `terminate` call is commented
out in the source, on the exception path `execute_code.terminate()` runs
before the exception is re-raised. -/
def planAndAct (inner : Except String String) :
    List BackendEv × Except String String :=
  match inner with
  | .ok rsp => ([], .ok rsp)
  | .error e => ([BackendEv.terminate], .error e)

/-- A concrete interpreter instance used to evaluate the theorems below on
closed inputs: planning disabled, a benign logging sink, no tool
recommender, no images, every execution succeeding. -/
def agentBase : Agent where
  usePlan := false
  useReflection := false
  toolRecommender := none
  planStatusOf := ""
  finishedTasks := []
  currentTaskType := ""
  checkDataCode := ""
  checkExecuteRun := fun _ => ("", false)
  todoRun := fun _ => "print(1)"
  executeRun := fun _ => ("res", true)
  askReview := fun _ => ""
  logExecution := fun _ => .ok ()
  imagesOf := fun _ => []
  changeWord := "change"
  memories := [⟨"requirement", "user", ""⟩]

/-- Backend scripted to fail once and then succeed. -/
def agentFailThenOk : Agent :=
  { agentBase with executeRun := fun k => if k = 0 then ("err", false) else ("res", true) }

/-- Backend scripted to always fail, reviewer answering without the change
trigger word. -/
def agentAllFail : Agent :=
  { agentBase with
    executeRun := fun _ => ("err", false)
    askReview := fun _ => "stop" }

/-- Backend scripted to fail three times and then succeed, reviewer
answering with the change trigger word. -/
def agentReviewRetry : Agent :=
  { agentBase with
    executeRun := fun k => if k < 3 then ("err", false) else ("res", true)
    askReview := fun _ => "please change it" }

/-- Logging sink that raises on the first fragment the retry loop sends. -/
def agentLogDown : Agent :=
  { agentBase with
    logExecution := fun s =>
      if s = "### Code to be executed\n" then .error "log sink failure" else .ok () }

theorem exOkBind {ε α β : Type} (a : α) (f : α → Except ε β) :
    (Except.ok a : Except ε α) >>= f = f a := rfl

theorem exErrBind {ε α β : Type} (e : ε) (f : α → Except ε β) :
    (Except.error e : Except ε α) >>= f = .error e := rfl

theorem exBindOk {ε α β : Type} (a : α) (f : α → Except ε β) :
    (Except.ok a : Except ε α).bind f = f a := rfl

theorem exBindErr {ε α β : Type} (e : ε) (f : α → Except ε β) :
    (Except.error e : Except ε α).bind f = .error e := rfl

theorem append_singleton_ne (wm : List Message) (m : Message) :
    wm ++ [m] ≠ wm := by
  intro h
  have := congrArg List.length h
  simp at this

/-- A fully reliable logging sink lets the per-image processing succeed. -/
theorem processImage_ok (logf : String → Except String Unit)
    (hlog : ∀ s, logf s = .ok ()) (img : ImageFile) :
    processImage logf img = .ok () := by
  unfold processImage
  by_cases h : img.found <;> simp [h, hlog, exOkBind]

/-- A fully reliable logging sink lets the image-extraction helper succeed. -/
theorem extractAndLogImages_ok (logf : String → Except String Unit)
    (hlog : ∀ s, logf s = .ok ()) (imgs : List ImageFile) :
    extractAndLogImages logf imgs = .ok () := by
  induction imgs with
  | nil => rfl
  | cons img rest ih =>
    unfold extractAndLogImages
    rw [processImage_ok logf hlog img]
    exact ih

/-- One iteration whose execution succeeds: counter bumped, no review, the
code/result message pair appended, success flag set. -/
theorem weIter_succ (a : Agent) (maxRetry : Nat) (ps ti uid : String)
    (st : LoopSt) (hlog : ∀ s, a.logExecution s = .ok ())
    (hs : (a.executeRun st.calls).2 = true) :
    weIter a maxRetry ps ti uid st =
      .ok ⟨st.counter + 1, st.calls + 1, st.reviews,
        st.memory ++ [⟨a.todoRun st.calls, "assistant", "WriteAnalysisCode"⟩,
          ⟨(a.executeRun st.calls).1, "user", "ExecuteNbCode"⟩],
        some (a.todoRun st.calls, (a.executeRun st.calls).1), true⟩ := by
  unfold weIter writeCode
  simp [hlog, hs, exOkBind, extractAndLogImages_ok _ hlog]

/-- One iteration whose execution fails below the retry bound: counter
bumped, no review, the message pair appended, success flag still false. -/
theorem weIter_fail_noRev (a : Agent) (maxRetry : Nat) (ps ti uid : String)
    (st : LoopSt) (hlog : ∀ s, a.logExecution s = .ok ())
    (hs : (a.executeRun st.calls).2 = false)
    (hc : st.counter + 1 < maxRetry) :
    weIter a maxRetry ps ti uid st =
      .ok ⟨st.counter + 1, st.calls + 1, st.reviews,
        st.memory ++ [⟨a.todoRun st.calls, "assistant", "WriteAnalysisCode"⟩,
          ⟨(a.executeRun st.calls).1, "user", "ExecuteNbCode"⟩],
        some (a.todoRun st.calls, (a.executeRun st.calls).1), false⟩ := by
  unfold weIter writeCode
  have hc' : ¬ maxRetry ≤ st.counter + 1 := by omega
  simp [hlog, hs, hc', exOkBind]

/-- One iteration whose execution fails at the retry bound: the review gate
is consulted once and the counter resets exactly when the response contains
the change trigger word. -/
theorem weIter_fail_rev (a : Agent) (maxRetry : Nat) (ps ti uid : String)
    (st : LoopSt) (hlog : ∀ s, a.logExecution s = .ok ())
    (hs : (a.executeRun st.calls).2 = false)
    (hc : maxRetry ≤ st.counter + 1) :
    weIter a maxRetry ps ti uid st =
      .ok ⟨(if pyIn a.changeWord (a.askReview st.reviews) then 0 else st.counter + 1),
        st.calls + 1, st.reviews + 1,
        st.memory ++ [⟨a.todoRun st.calls, "assistant", "WriteAnalysisCode"⟩,
          ⟨(a.executeRun st.calls).1, "user", "ExecuteNbCode"⟩],
        some (a.todoRun st.calls, (a.executeRun st.calls).1), false⟩ := by
  unfold weIter writeCode
  simp [hlog, hs, hc, exOkBind]

/-- When the loop guard is false the loop returns regardless of fuel. -/
theorem weLoop_exit (a : Agent) (maxRetry : Nat) (ps ti uid : String)
    (fuel : Nat) (st : LoopSt) (h : loopCond maxRetry st = false) :
    weLoop a maxRetry ps ti uid fuel st = weFinish st := by
  cases fuel <;> simp [weLoop, h]

/-- When the loop guard is true the loop runs one iteration and continues. -/
theorem weLoop_cont (a : Agent) (maxRetry : Nat) (ps ti uid : String)
    (fuel : Nat) (st : LoopSt) (h : loopCond maxRetry st = true) :
    weLoop a maxRetry ps ti uid (fuel + 1) st =
      (weIter a maxRetry ps ti uid st).bind
        (weLoop a maxRetry ps ti uid fuel) := by
  simp [weLoop, h]

/-- A successful execution ends the loop at once with that attempt's code
and result. -/
theorem weLoop_step_succ (a : Agent) (maxRetry : Nat) (ps ti uid : String)
    (fuel : Nat) (st : LoopSt) (hlog : ∀ s, a.logExecution s = .ok ())
    (h0 : st.success = false) (hcnt : st.counter < maxRetry)
    (hs : (a.executeRun st.calls).2 = true) :
    weLoop a maxRetry ps ti uid (fuel + 1) st =
      .ok ⟨a.todoRun st.calls, (a.executeRun st.calls).1, true,
        st.calls + 1, st.reviews,
        st.memory ++ [⟨a.todoRun st.calls, "assistant", "WriteAnalysisCode"⟩,
          ⟨(a.executeRun st.calls).1, "user", "ExecuteNbCode"⟩]⟩ := by
  rw [weLoop_cont a maxRetry ps ti uid fuel st (by simp [loopCond, h0, hcnt]),
    weIter_succ a maxRetry ps ti uid st hlog hs, exBindOk,
    weLoop_exit a maxRetry ps ti uid fuel _ (by simp [loopCond])]
  rfl

/-- A failing execution below the retry bound continues the loop with the
counter bumped and the message pair appended. -/
theorem weLoop_step_fail_noRev (a : Agent) (maxRetry : Nat) (ps ti uid : String)
    (fuel : Nat) (st : LoopSt) (hlog : ∀ s, a.logExecution s = .ok ())
    (h0 : st.success = false) (hcnt : st.counter < maxRetry)
    (hs : (a.executeRun st.calls).2 = false)
    (hc : st.counter + 1 < maxRetry) :
    weLoop a maxRetry ps ti uid (fuel + 1) st =
      weLoop a maxRetry ps ti uid fuel
        ⟨st.counter + 1, st.calls + 1, st.reviews,
          st.memory ++ [⟨a.todoRun st.calls, "assistant", "WriteAnalysisCode"⟩,
            ⟨(a.executeRun st.calls).1, "user", "ExecuteNbCode"⟩],
          some (a.todoRun st.calls, (a.executeRun st.calls).1), false⟩ := by
  rw [weLoop_cont a maxRetry ps ti uid fuel st (by simp [loopCond, h0, hcnt]),
    weIter_fail_noRev a maxRetry ps ti uid st hlog hs hc, exBindOk]

/-- A failing execution that exhausts the retry budget consults the review
gate once; the counter resets iff the response contains the trigger word. -/
theorem weLoop_step_fail_rev (a : Agent) (maxRetry : Nat) (ps ti uid : String)
    (fuel : Nat) (st : LoopSt) (hlog : ∀ s, a.logExecution s = .ok ())
    (h0 : st.success = false) (hcnt : st.counter < maxRetry)
    (hs : (a.executeRun st.calls).2 = false)
    (hc : maxRetry ≤ st.counter + 1) :
    weLoop a maxRetry ps ti uid (fuel + 1) st =
      weLoop a maxRetry ps ti uid fuel
        ⟨(if pyIn a.changeWord (a.askReview st.reviews) then 0 else st.counter + 1),
          st.calls + 1, st.reviews + 1,
          st.memory ++ [⟨a.todoRun st.calls, "assistant", "WriteAnalysisCode"⟩,
            ⟨(a.executeRun st.calls).1, "user", "ExecuteNbCode"⟩],
          some (a.todoRun st.calls, (a.executeRun st.calls).1), false⟩ := by
  rw [weLoop_cont a maxRetry ps ti uid fuel st (by simp [loopCond, h0, hcnt]),
    weIter_fail_rev a maxRetry ps ti uid st hlog hs hc, exBindOk]

theorem attemptMsgs_snoc (a : Agent) :
    ∀ (n c : Nat),
      attemptMsgs a c (n + 1) =
        attemptMsgs a c n ++
          [⟨a.todoRun (c + n), "assistant", "WriteAnalysisCode"⟩,
           ⟨(a.executeRun (c + n)).1, "user", "ExecuteNbCode"⟩] := by
  intro n
  induction n with
  | zero => intro c; simp [attemptMsgs]
  | succ m ih =>
    intro c
    have harith : c + 1 + m = c + (m + 1) := by omega
    calc attemptMsgs a c (m + 1 + 1)
        = ⟨a.todoRun c, "assistant", "WriteAnalysisCode"⟩ ::
          ⟨(a.executeRun c).1, "user", "ExecuteNbCode"⟩ ::
          attemptMsgs a (c + 1) (m + 1) := rfl
      _ = _ := by rw [ih (c + 1), harith]; simp [attemptMsgs]

theorem attemptMsgs_length (a : Agent) :
    ∀ (n c : Nat), (attemptMsgs a c n).length = 2 * n := by
  intro n
  induction n with
  | zero => intro c; rfl
  | succ m ih => intro c; simp [attemptMsgs, ih (c + 1)]; omega

/-- `n` consecutive failing attempts strictly below the retry bound advance
the loop state by `n` attempts without consulting the review gate. -/
theorem weLoop_run_fails (a : Agent) (maxRetry : Nat) (ps ti uid : String)
    (hlog : ∀ s, a.logExecution s = .ok ()) :
    ∀ (n fuel : Nat) (st : LoopSt), st.success = false →
      (∀ k, k < n → (a.executeRun (st.calls + k)).2 = false) →
      st.counter + n < maxRetry →
      weLoop a maxRetry ps ti uid (n + fuel) st =
        weLoop a maxRetry ps ti uid fuel
          ⟨st.counter + n, st.calls + n, st.reviews,
            st.memory ++ attemptMsgs a st.calls n,
            lastAfter a st.calls n st.last, false⟩ := by
  intro n
  induction n with
  | zero =>
    intro fuel st h0 _ _
    obtain ⟨c, cl, rv, mem, l, s⟩ := st
    simp only at h0
    subst h0
    simp [attemptMsgs, lastAfter]
  | succ m ih =>
    intro fuel st h0 hf hcnt
    have harith : m + 1 + fuel = m + (fuel + 1) := by omega
    rw [harith, ih (fuel + 1) st h0 (fun k hk => hf k (by omega)) (by omega)]
    have hstep := weLoop_step_fail_noRev a maxRetry ps ti uid fuel
      ⟨st.counter + m, st.calls + m, st.reviews,
        st.memory ++ attemptMsgs a st.calls m,
        lastAfter a st.calls m st.last, false⟩ hlog rfl
      (show st.counter + m < maxRetry by omega)
      (hf m (by omega))
      (show st.counter + m + 1 < maxRetry by omega)
    rw [hstep]
    congr 1
    simp [attemptMsgs_snoc, lastAfter]
    omega

/-- With a reliable logging sink each iteration succeeds, performs exactly
one attempt and appends exactly the code/result message pair. -/
theorem weIter_shape (a : Agent) (maxRetry : Nat) (ps ti uid : String)
    (st : LoopSt) (hlog : ∀ s, a.logExecution s = .ok ()) :
    ∃ st', weIter a maxRetry ps ti uid st = .ok st' ∧
      st'.calls = st.calls + 1 ∧
      st'.memory = st.memory ++
        [⟨a.todoRun st.calls, "assistant", "WriteAnalysisCode"⟩,
         ⟨(a.executeRun st.calls).1, "user", "ExecuteNbCode"⟩] := by
  by_cases hs : (a.executeRun st.calls).2 = true
  · exact ⟨_, weIter_succ a maxRetry ps ti uid st hlog hs, rfl, rfl⟩
  · rw [Bool.not_eq_true] at hs
    by_cases hc : maxRetry ≤ st.counter + 1
    · exact ⟨_, weIter_fail_rev a maxRetry ps ti uid st hlog hs hc, rfl, rfl⟩
    · exact ⟨_, weIter_fail_noRev a maxRetry ps ti uid st hlog hs (by omega), rfl, rfl⟩

/-- Memory invariant of the retry loop: any run that returns appends, to the
memory it started from, exactly the code/result message pair of each attempt
it performed, in attempt order. -/
theorem weLoop_memory (a : Agent) (maxRetry : Nat) (ps ti uid : String)
    (hlog : ∀ s, a.logExecution s = .ok ()) :
    ∀ (fuel : Nat) (st : LoopSt) (out : RunOut),
      weLoop a maxRetry ps ti uid fuel st = .ok out →
      st.calls ≤ out.execCount ∧
      out.memory = st.memory ++ attemptMsgs a st.calls (out.execCount - st.calls) := by
  intro fuel
  induction fuel with
  | zero =>
    intro st out h
    by_cases hc : loopCond maxRetry st = true
    · simp [weLoop, hc] at h
    · rw [weLoop_exit a maxRetry ps ti uid 0 st (by simpa using hc)] at h
      unfold weFinish at h
      cases hl : st.last with
      | none => rw [hl] at h; exact absurd h (by simp)
      | some cr =>
        rw [hl] at h
        cases h
        simp [attemptMsgs]
  | succ f ih =>
    intro st out h
    by_cases hc : loopCond maxRetry st = true
    · rw [weLoop_cont a maxRetry ps ti uid f st hc] at h
      obtain ⟨st', hst', hcalls, hmem⟩ := weIter_shape a maxRetry ps ti uid st hlog
      rw [hst', exBindOk] at h
      obtain ⟨h1, h2⟩ := ih st' out h
      refine ⟨by omega, ?_⟩
      rw [h2, hmem, hcalls]
      have hn : out.execCount - st.calls = (out.execCount - (st.calls + 1)) + 1 := by omega
      rw [hn]
      simp [attemptMsgs]
    · rw [weLoop_exit a maxRetry ps ti uid (f + 1) st (by simpa using hc)] at h
      unfold weFinish at h
      cases hl : st.last with
      | none => rw [hl] at h; exact absurd h (by simp)
      | some cr =>
        rw [hl] at h
        cases h
        simp [attemptMsgs]

/-- Claim C1: for every sequence of `N` consecutive execution failures
followed by one success, with `N < max_retry`, `_write_and_exec_code`
performs exactly `N + 1` execution-backend calls inside the retry loop and
returns `success = true` with the last (successful) attempt's code and
result, stopping immediately on the first success. -/
theorem writeAndExec_fail_then_success (a : Agent) (maxRetry N fuel : Nat)
    (userId : String) (wm0 : List Message)
    (hlog : ∀ s, a.logExecution s = .ok ())
    (hN : N < maxRetry)
    (hfail : ∀ k, k < N → (a.executeRun k).2 = false)
    (hsucc : (a.executeRun N).2 = true)
    (hfuel : N + 1 ≤ fuel) :
    writeAndExecCode a maxRetry userId wm0 fuel =
      .ok ⟨a.todoRun N, (a.executeRun N).1, true, N + 1, 0,
        (checkData a.usePlan a.finishedTasks a.currentTaskType a.checkDataCode
          a.checkExecuteRun wm0).memory ++ attemptMsgs a 0 (N + 1)⟩ := by
  obtain ⟨f, rfl⟩ : ∃ f, fuel = N + (f + 1) := ⟨fuel - N - 1, by omega⟩
  simp only [writeAndExecCode]
  rw [weLoop_run_fails a maxRetry _ _ userId hlog N (f + 1) ⟨0, 0, 0, _, none, false⟩
    rfl (fun k hk => by simpa using hfail k hk) (show 0 + N < maxRetry by omega)]
  rw [weLoop_step_succ a maxRetry _ _ userId f _ hlog rfl
    (show 0 + N < maxRetry by omega) (by simpa using hsucc)]
  simp [attemptMsgs_snoc]

/-- Exhaustion without a retry signal: `max_retry` failing attempts, one
review prompt whose answer lacks the trigger word, and a failed return with
the last attempt's code and result. -/
theorem weExhaust_aux (a : Agent) (maxRetry fuel : Nat) (userId : String)
    (wm0 : List Message)
    (hlog : ∀ s, a.logExecution s = .ok ())
    (hM : 0 < maxRetry)
    (hfail : ∀ k, k < maxRetry → (a.executeRun k).2 = false)
    (hrev : pyIn a.changeWord (a.askReview 0) = false)
    (hfuel : maxRetry ≤ fuel) :
    writeAndExecCode a maxRetry userId wm0 fuel =
      .ok ⟨a.todoRun (maxRetry - 1), (a.executeRun (maxRetry - 1)).1, false,
        maxRetry, 1,
        (checkData a.usePlan a.finishedTasks a.currentTaskType a.checkDataCode
          a.checkExecuteRun wm0).memory ++ attemptMsgs a 0 maxRetry⟩ := by
  obtain ⟨M, rfl⟩ : ∃ M, maxRetry = M + 1 := ⟨maxRetry - 1, by omega⟩
  obtain ⟨f, rfl⟩ : ∃ f, fuel = M + (f + 1) := ⟨fuel - M - 1, by omega⟩
  simp only [writeAndExecCode]
  rw [weLoop_run_fails a (M + 1) _ _ userId hlog M (f + 1) ⟨0, 0, 0, _, none, false⟩
    rfl (fun k hk => by simpa using hfail k (by omega)) (show 0 + M < M + 1 by omega)]
  rw [weLoop_step_fail_rev a (M + 1) _ _ userId f _ hlog rfl
    (show 0 + M < M + 1 by omega)
    (by simpa using hfail M (by omega))
    (show M + 1 ≤ 0 + M + 1 by omega)]
  simp only [hrev, if_false]
  rw [weLoop_exit a (M + 1) _ _ userId f _ (by simp [loopCond])]
  simp [weFinish, lastAfter, attemptMsgs_snoc]

/-- Claim C2: for every run of at least `max_retry` consecutive execution
failures in which the review response lacks the retry trigger word,
`_write_and_exec_code` performs exactly `max_retry` loop execution calls,
issues exactly one review prompt, and returns `success = false` with the
last attempt's code and result. -/
theorem writeAndExec_exhaust_no_retry (a : Agent) (maxRetry fuel : Nat)
    (userId : String) (wm0 : List Message)
    (hlog : ∀ s, a.logExecution s = .ok ())
    (hM : 0 < maxRetry)
    (hfail : ∀ k, k < maxRetry → (a.executeRun k).2 = false)
    (hrev : pyIn a.changeWord (a.askReview 0) = false)
    (hfuel : maxRetry ≤ fuel) :
    writeAndExecCode a maxRetry userId wm0 fuel =
      .ok ⟨a.todoRun (maxRetry - 1), (a.executeRun (maxRetry - 1)).1, false,
        maxRetry, 1,
        (checkData a.usePlan a.finishedTasks a.currentTaskType a.checkDataCode
          a.checkExecuteRun wm0).memory ++ attemptMsgs a 0 maxRetry⟩ :=
  weExhaust_aux a maxRetry fuel userId wm0 hlog hM hfail hrev hfuel

/-- Claim C8: on exhaustion, a review response containing the trigger word
resets the counter to 0 and the generate-execute loop resumes (here: one
further, successful attempt is performed and returned); any other response
terminates the task as failed with the last code, last result and
`success = false`. -/
theorem writeAndExec_review_gate (a : Agent) (maxRetry fuel : Nat)
    (userId : String) (wm0 : List Message)
    (hlog : ∀ s, a.logExecution s = .ok ())
    (hM : 0 < maxRetry)
    (hfail : ∀ k, k < maxRetry → (a.executeRun k).2 = false)
    (hfuel : maxRetry + 1 ≤ fuel) :
    (pyIn a.changeWord (a.askReview 0) = true →
      (a.executeRun maxRetry).2 = true →
      writeAndExecCode a maxRetry userId wm0 fuel =
        .ok ⟨a.todoRun maxRetry, (a.executeRun maxRetry).1, true,
          maxRetry + 1, 1,
          (checkData a.usePlan a.finishedTasks a.currentTaskType a.checkDataCode
            a.checkExecuteRun wm0).memory ++ attemptMsgs a 0 (maxRetry + 1)⟩)
    ∧ (pyIn a.changeWord (a.askReview 0) = false →
      writeAndExecCode a maxRetry userId wm0 fuel =
        .ok ⟨a.todoRun (maxRetry - 1), (a.executeRun (maxRetry - 1)).1, false,
          maxRetry, 1,
          (checkData a.usePlan a.finishedTasks a.currentTaskType a.checkDataCode
            a.checkExecuteRun wm0).memory ++ attemptMsgs a 0 maxRetry⟩) := by
  constructor
  · intro hrev hsucc
    obtain ⟨M, rfl⟩ : ∃ M, maxRetry = M + 1 := ⟨maxRetry - 1, by omega⟩
    obtain ⟨f, rfl⟩ : ∃ f, fuel = M + (f + 1 + 1) := ⟨fuel - M - 2, by omega⟩
    simp only [writeAndExecCode]
    rw [weLoop_run_fails a (M + 1) _ _ userId hlog M (f + 1 + 1) ⟨0, 0, 0, _, none, false⟩
      rfl (fun k hk => by simpa using hfail k (by omega)) (show 0 + M < M + 1 by omega)]
    rw [weLoop_step_fail_rev a (M + 1) _ _ userId (f + 1) _ hlog rfl
      (show 0 + M < M + 1 by omega)
      (by simpa using hfail M (by omega))
      (show M + 1 ≤ 0 + M + 1 by omega)]
    simp only [hrev, if_true]
    rw [weLoop_step_succ a (M + 1) _ _ userId f _ hlog rfl
      (show 0 < M + 1 by omega)
      (by simpa using hsucc)]
    simp [attemptMsgs_snoc]
  · intro hrev
    exact weExhaust_aux a maxRetry fuel userId wm0 hlog hM hfail hrev (by omega)

/-- Claim C3: any terminating run of `_write_and_exec_code` (with a
reliable logging sink) leaves Working Memory equal to the memory after the
data check plus, for each of the `K` attempts the loop performed, exactly a
code message (role `assistant`) immediately followed by that attempt's
result message (role `user`), in attempt order — hence exactly `2 K`
messages appended by the loop, whether the executions succeeded or failed. -/
theorem writeAndExec_memory_pairs (a : Agent) (maxRetry fuel : Nat)
    (userId : String) (wm0 : List Message) (out : RunOut)
    (hlog : ∀ s, a.logExecution s = .ok ())
    (hrun : writeAndExecCode a maxRetry userId wm0 fuel = .ok out) :
    out.memory =
      (checkData a.usePlan a.finishedTasks a.currentTaskType a.checkDataCode
        a.checkExecuteRun wm0).memory ++ attemptMsgs a 0 out.execCount ∧
    out.memory.length =
      (checkData a.usePlan a.finishedTasks a.currentTaskType a.checkDataCode
        a.checkExecuteRun wm0).memory.length + 2 * out.execCount := by
  simp only [writeAndExecCode] at hrun
  obtain ⟨h1, h2⟩ := weLoop_memory a maxRetry _ _ userId hlog fuel _ out hrun
  simp only [Nat.sub_zero] at h2
  refine ⟨h2, ?_⟩
  rw [h2]
  simp [attemptMsgs_length]

/-- Claim C4: `_check_data` appends a data-info message to Working Memory
iff planning is enabled, at least one task is finished, the current task's
type is the data-preprocessing tag, and an inspection execution was
performed and succeeded; and whenever it appends, it appends exactly the
formatted data-info message.  On a failing inspection execution the memory
is untouched (and `checkData`, being total, raises nothing). -/
theorem checkData_appends_iff (usePlan : Bool) (ft : List String)
    (ctt g : String) (ex : String → String × Bool) (wm : List Message) :
    ((checkData usePlan ft ctt g ex wm).memory ≠ wm ↔
      (usePlan = true ∧ ft ≠ [] ∧ ctt = dataPreprocessTypeName ∧
        (checkData usePlan ft ctt g ex wm).execCalls = [g] ∧ (ex g).2 = true))
    ∧ ((checkData usePlan ft ctt g ex wm).memory ≠ wm →
      (checkData usePlan ft ctt g ex wm).memory =
        wm ++ [⟨dataInfoStr (ex g).1, "user", "CheckData"⟩]) := by
  unfold checkData
  by_cases h1 : usePlan = false ∨ ft = [] ∨ ctt ≠ dataPreprocessTypeName
  · simp only [h1, if_true]
    constructor
    · simp only [ne_eq, not_true_eq_false, false_iff]
      rcases h1 with h | h | h <;> simp [h]
    · simp
  · simp only [h1, if_false]
    push_neg at h1
    obtain ⟨hu, hft, hct⟩ := h1
    by_cases h2 : pyStrip g = ""
    · simp [h2]
    · simp only [h2, if_false]
      by_cases h3 : (ex g).2 = true
      · simp only [h3, if_true]
        refine ⟨?_, fun _ => trivial⟩
        have hne := append_singleton_ne wm ⟨dataInfoStr (ex g).1, "user", "CheckData"⟩
        have hu' : usePlan = true := by simpa using hu
        simp [hne, hu', hft, hct]
      · simp only [Bool.not_eq_true] at h3
        simp [h3]

/-- Claim C10: when the inspection-code generation returns an empty or
whitespace-only string, `_check_data` returns without submitting anything to
the execution backend and without modifying Working Memory. -/
theorem checkData_blank_frame (usePlan : Bool) (ft : List String)
    (ctt g : String) (ex : String → String × Bool) (wm : List Message)
    (hg : pyStrip g = "") :
    checkData usePlan ft ctt g ex wm = ⟨[], wm⟩ := by
  unfold checkData
  by_cases h1 : usePlan = false ∨ ft = [] ∨ ctt ≠ dataPreprocessTypeName
  · simp [h1]
  · simp [h1, hg]

/-- Claim C5: the code generator is invoked reflectively iff the attempt
counter is positive and the reflection configuration flag is enabled; in
particular the first attempt (`counter = 0`) is never reflective. -/
theorem writeCode_reflective_iff (gen : Nat → String) (idx counter : Nat)
    (ps ti : String) (mems wm : List Message) (cfg : Bool) (uid : String) :
    (writeCode gen idx counter ps ti mems wm cfg uid).2.useReflection = true ↔
      (0 < counter ∧ cfg = true) := by
  unfold writeCode
  simp

/-- Claim C6: in react mode, `_think` on an empty working memory returns
`true` without consulting the language model (the model and parser oracles
are arbitrary and unused, and the call count is 0), adding the user
requirement to memory and selecting state 0. -/
theorem think_empty_memory_forces_action (llm : String → String)
    (parseRsp : String → Option (String × Bool))
    (renderCtx : List Message → String) (m0 : Message) (rest : List Message) :
    think llm parseRsp renderCtx (m0 :: rest) [] = .ok ⟨true, 0, [m0], 0⟩ := by
  simp [think]

/-- Claim C7: every exception escaping the inner plan-and-act loop causes
`execute_code.terminate()` to run before the exception is re-raised. -/
theorem planAndAct_terminate_on_error (e : String) :
    planAndAct (.error e) = ([BackendEv.terminate], .error e) := rfl

/-- Claim C9 (amended): a `log_execution` failure inside the retry loop of
`_write_and_exec_code` is not caught — it propagates and aborts the loop
(first conjunct) — while inside `extract_and_log_images` any exception
raised in an image's `try` block is swallowed locally, provided the
error-logging call of the handler itself succeeds (second conjunct). -/
theorem logExecution_failure_propagation :
    (∀ (a : Agent) (maxRetry fuel : Nat) (userId : String)
        (wm0 : List Message) (e : String),
      0 < maxRetry → 0 < fuel →
      a.logExecution "### Code to be executed\n" = .error e →
      writeAndExecCode a maxRetry userId wm0 fuel = .error e)
    ∧ (∀ (logf : String → Except String Unit) (images : List ImageFile),
      (∀ p e, logf ("Error processing image " ++ p ++ ": " ++ e) = .ok ()) →
      extractAndLogImages logf images = .ok ()) := by
  constructor
  · intro a maxRetry fuel userId wm0 e hM hfuel hlog
    obtain ⟨f, rfl⟩ : ∃ f, fuel = f + 1 := ⟨fuel - 1, by omega⟩
    simp only [writeAndExecCode]
    rw [weLoop_cont a maxRetry _ _ userId f _ (by simp [loopCond, hM])]
    unfold weIter
    rw [hlog]
    rfl
  · intro logf images hrec
    induction images with
    | nil => rfl
    | cons img rest ih =>
      unfold extractAndLogImages
      cases hp : processImage logf img with
      | ok u => cases u; exact ih
      | error e =>
        show (do
          logf ("Error processing image " ++ img.path ++ ": " ++ e)
          extractAndLogImages logf rest) = .ok ()
        rw [hrec img.path e, exOkBind]
        exact ih

/-- Claim C9 counterexample: with a logging sink that raises on the first
fragment the loop sends, `_write_and_exec_code` aborts with that very
exception instead of swallowing it — so a logging-sink failure does abort
the loop and pre-empts the task's success/failure determination. -/
theorem logExecution_failure_aborts_loop :
    writeAndExecCode agentLogDown 3 "" [] 3 = .error "log sink failure" := by
  rfl

/-- Claim C1, evaluated: one failure then one success under `max_retry = 3`
performs exactly two attempts and returns the second attempt's data. -/
theorem writeAndExec_fail_then_success_witness :
    (1 : Nat) < 3 ∧
    writeAndExecCode agentFailThenOk 3 "" [] 2 =
      .ok ⟨agentFailThenOk.todoRun 1, (agentFailThenOk.executeRun 1).1, true, 2, 0,
        (checkData agentFailThenOk.usePlan agentFailThenOk.finishedTasks
          agentFailThenOk.currentTaskType agentFailThenOk.checkDataCode
          agentFailThenOk.checkExecuteRun []).memory ++ attemptMsgs agentFailThenOk 0 2⟩ :=
  ⟨by decide,
    writeAndExec_fail_then_success agentFailThenOk 3 1 2 "" []
      (fun _ => rfl) (by decide)
      (fun k hk => by
        have hk0 : k = 0 := by omega
        subst hk0
        rfl)
      rfl (by decide)⟩

/-- Claim C2, evaluated: three failures under `max_retry = 3` with a review
answer lacking the trigger word return failure after exactly three attempts
and one review. -/
theorem writeAndExec_exhaust_no_retry_witness :
    (0 : Nat) < 3 ∧ pyIn agentAllFail.changeWord (agentAllFail.askReview 0) = false ∧
    writeAndExecCode agentAllFail 3 "" [] 3 =
      .ok ⟨agentAllFail.todoRun 2, (agentAllFail.executeRun 2).1, false, 3, 1,
        (checkData agentAllFail.usePlan agentAllFail.finishedTasks
          agentAllFail.currentTaskType agentAllFail.checkDataCode
          agentAllFail.checkExecuteRun []).memory ++ attemptMsgs agentAllFail 0 3⟩ :=
  ⟨by decide, rfl,
    writeAndExec_exhaust_no_retry agentAllFail 3 3 "" []
      (fun _ => rfl) (by decide) (fun k _ => rfl) rfl (by decide)⟩

/-- Claim C3, evaluated: a run with one successful attempt appends exactly
its code/result message pair, two messages in total. -/
theorem writeAndExec_memory_pairs_witness :
    (RunOut.memory ⟨"print(1)", "res", true, 1, 0,
        [⟨"print(1)", "assistant", "WriteAnalysisCode"⟩,
         ⟨"res", "user", "ExecuteNbCode"⟩]⟩ =
      (checkData agentBase.usePlan agentBase.finishedTasks
        agentBase.currentTaskType agentBase.checkDataCode
        agentBase.checkExecuteRun []).memory ++
        attemptMsgs agentBase 0
          (RunOut.execCount ⟨"print(1)", "res", true, 1, 0,
            [⟨"print(1)", "assistant", "WriteAnalysisCode"⟩,
             ⟨"res", "user", "ExecuteNbCode"⟩]⟩)) ∧
    (RunOut.memory ⟨"print(1)", "res", true, 1, 0,
        [⟨"print(1)", "assistant", "WriteAnalysisCode"⟩,
         ⟨"res", "user", "ExecuteNbCode"⟩]⟩).length =
      (checkData agentBase.usePlan agentBase.finishedTasks
        agentBase.currentTaskType agentBase.checkDataCode
        agentBase.checkExecuteRun []).memory.length +
        2 * (RunOut.execCount ⟨"print(1)", "res", true, 1, 0,
          [⟨"print(1)", "assistant", "WriteAnalysisCode"⟩,
           ⟨"res", "user", "ExecuteNbCode"⟩]⟩) :=
  writeAndExec_memory_pairs agentBase 3 1 "" []
    ⟨"print(1)", "res", true, 1, 0,
      [⟨"print(1)", "assistant", "WriteAnalysisCode"⟩,
       ⟨"res", "user", "ExecuteNbCode"⟩]⟩
    (fun _ => rfl) rfl

/-- Claim C8, evaluated: three failures under `max_retry = 3`, a review
answer containing the trigger word, then a successful fourth attempt. -/
theorem writeAndExec_review_gate_witness :
    (pyIn agentReviewRetry.changeWord (agentReviewRetry.askReview 0) = true →
      (agentReviewRetry.executeRun 3).2 = true →
      writeAndExecCode agentReviewRetry 3 "" [] 4 =
        .ok ⟨agentReviewRetry.todoRun 3, (agentReviewRetry.executeRun 3).1, true, 4, 1,
          (checkData agentReviewRetry.usePlan agentReviewRetry.finishedTasks
            agentReviewRetry.currentTaskType agentReviewRetry.checkDataCode
            agentReviewRetry.checkExecuteRun []).memory ++
            attemptMsgs agentReviewRetry 0 4⟩)
    ∧ (pyIn agentReviewRetry.changeWord (agentReviewRetry.askReview 0) = false →
      writeAndExecCode agentReviewRetry 3 "" [] 4 =
        .ok ⟨agentReviewRetry.todoRun 2, (agentReviewRetry.executeRun 2).1, false, 3, 1,
          (checkData agentReviewRetry.usePlan agentReviewRetry.finishedTasks
            agentReviewRetry.currentTaskType agentReviewRetry.checkDataCode
            agentReviewRetry.checkExecuteRun []).memory ++
            attemptMsgs agentReviewRetry 0 3⟩) :=
  writeAndExec_review_gate agentReviewRetry 3 4 "" []
    (fun _ => rfl) (by decide)
    (fun k hk => by
      show (if k < 3 then (("err" : String), false) else ("res", true)).2 = false
      rw [if_pos hk])
    (by decide)

/-- Claim C4, evaluated: with planning enabled, one finished task, a
data-preprocessing current task and a succeeding inspection, the checker
appends exactly the data-info message. -/
theorem checkData_appends_iff_witness :
    ((checkData true ["t1"] dataPreprocessTypeName "print(df)"
        (fun _ => ("info", true)) []).memory ≠ ([] : List Message) ↔
      (true = true ∧ (["t1"] : List String) ≠ [] ∧
        dataPreprocessTypeName = dataPreprocessTypeName ∧
        (checkData true ["t1"] dataPreprocessTypeName "print(df)"
          (fun _ => ("info", true)) []).execCalls = ["print(df)"] ∧
        ((fun (_ : String) => (("info" : String), true)) "print(df)").2 = true))
    ∧ ((checkData true ["t1"] dataPreprocessTypeName "print(df)"
        (fun _ => ("info", true)) []).memory ≠ ([] : List Message) →
      (checkData true ["t1"] dataPreprocessTypeName "print(df)"
        (fun _ => ("info", true)) []).memory =
        [] ++ [⟨dataInfoStr ((fun (_ : String) => (("info" : String), true)) "print(df)").1,
          "user", "CheckData"⟩]) :=
  checkData_appends_iff true ["t1"] dataPreprocessTypeName "print(df)"
    (fun _ => ("info", true)) []

/-- Claim C10, evaluated: a whitespace-only inspection snippet leaves the
backend unconsulted and the memory unchanged. -/
theorem checkData_blank_frame_witness :
    pyStrip " " = "" ∧
    checkData true ["t1"] dataPreprocessTypeName " "
      (fun _ => (("info" : String), true)) [] = ⟨[], []⟩ :=
  ⟨by decide, checkData_blank_frame true ["t1"] dataPreprocessTypeName " "
    (fun _ => (("info" : String), true)) [] (by decide)⟩

/-- Claim C9 (amended), evaluated: the failing sink aborts the loop with its
exception, while the image helper succeeds when only try-block calls fail. -/
theorem logExecution_failure_propagation_witness :
    writeAndExecCode agentLogDown 3 "x" [] 4 = .error "log sink failure" ∧
    extractAndLogImages (fun _ => .ok ()) [⟨"p.png", true, "ZGF0YQ"⟩] = .ok () :=
  ⟨logExecution_failure_propagation.1 agentLogDown 3 4 "x" [] "log sink failure"
      (by decide) (by decide) rfl,
    logExecution_failure_propagation.2 (fun _ => .ok ()) [⟨"p.png", true, "ZGF0YQ"⟩]
      (fun _ _ => rfl)⟩

end DI
